import Mathlib

/-!
Verification of the SONATE trust-receipt core
(`packages/trust-receipts-python/sonate/`): a shallow embedding of
`crypto.py`, `trust_receipt.py` and `wrapper.py`, followed by theorems about
the receipt builder, signer/verifier, serializer and chain verifier.

Conventions of the embedding:
* Python `bytes` values are modelled as `List Nat` (one entry per byte).
* Python `None` for "Any"-typed content slots is `JsonValue.null`; for
  string-typed optional fields it is `Option.none`.
* Fallible Python code (code that can raise) returns `Except String α`;
  `Except.error` models an exception propagating to the caller.
* The external Ed25519 primitives from PyNaCl are not part of this
  repository; they enter as explicit function parameters `edSign`/`edVerify`
  (`edVerify` models the whole `VerifyKey(pk).verify(msg, sig)` try-block:
  `true` for success, `false` for any caught failure).
* The external `json_canonicalize` (RFC 8785) and `hashlib.sha256` libraries
  are likewise not part of the repository; they are modelled by a concrete
  deterministic serializer with sorted object keys and by an injective
  digest placeholder, which is all the theorems rely on.
-/

set_option maxRecDepth 100000

set_option maxHeartbeats 1000000

namespace Sonate

/-- Model of a Python value as passed for prompts, responses and metadata
(maps, sequences, strings, numbers, booleans, `None`). Numbers are modelled
as exact rationals. -/
inductive JsonValue where
  | null
  | bool (b : Bool)
  | num (q : Rat)
  | str (s : String)
  | arr (elems : List JsonValue)
  | obj (fields : List (String × JsonValue))

/-- Python truthiness (`bool(v)`) over the modelled value domain. -/
def jsonTruthy : JsonValue → Bool
  | .null => false
  | .bool b => b
  | .num q => q != 0
  | .str s => s != ""
  | .arr l => !l.isEmpty
  | .obj l => !l.isEmpty

/-- The `v is None` check (`True` exactly on the model of Python `None`). -/
def isNull : JsonValue → Bool
  | .null => true
  | _ => false

/-- The `dict.get(k)` on the assoc-list model of a Python dict. -/
def objGet? (fields : List (String × JsonValue)) (k : String) : Option JsonValue :=
  (fields.find? (fun p => p.1 == k)).map (fun p => p.2)

/-- Computable lexicographic comparison of character lists (by code
point), used to model RFC 8785 member ordering. -/
def charListLe : List Char → List Char → Bool
  | [], _ => true
  | _ :: _, [] => false
  | a :: as, b :: bs =>
    if a.toNat < b.toNat then true
    else if b.toNat < a.toNat then false
    else charListLe as bs

/-- Lexicographic string comparison by code points. -/
def strLe (s t : String) : Bool := charListLe s.data t.data

/-- Insert a string into a sorted list of strings (ascending). -/
def insertSorted (s : String) : List String → List String
  | [] => [s]
  | t :: ts => if strLe s t then s :: t :: ts else t :: insertSorted s ts

/-- Insertion sort on strings, used to model RFC 8785 member ordering. -/
def sortStrings : List String → List String
  | [] => []
  | s :: ss => insertSorted s (sortStrings ss)

mutual

/-- Model of the external `json_canonicalize.canonicalize` (RFC 8785):
a deterministic serialization in which object members are sorted by key and
no insignificant whitespace appears. String escaping of the external
library is elided (all strings reaching it in this development are plain
printable ASCII), which is sound for the theorems below: they use the
canonical form only as an opaque deterministic fingerprint. -/
def canonicalize_json : JsonValue → String
  | .null => "null"
  | .bool true => "true"
  | .bool false => "false"
  | .num q => toString q
  | .str s => "\"" ++ s ++ "\""
  | .arr l => "[" ++ canonList l ++ "]"
  | .obj l => "\x7b" ++ String.intercalate "," (sortStrings (canonMembers l)) ++ "\x7d"

/-- Serialize a sequence, preserving element order. -/
def canonList : List JsonValue → String
  | [] => ""
  | [v] => canonicalize_json v
  | v :: vs => canonicalize_json v ++ "," ++ canonList vs

/-- Serialize each object member as a `"key":value` fragment. -/
def canonMembers : List (String × JsonValue) → List String
  | [] => []
  | (k, v) :: rest => ("\"" ++ k ++ "\":" ++ canonicalize_json v) :: canonMembers rest

end

/-- Model of `hashlib.sha256(...).hexdigest()` (external library): an ideal
injective digest. The theorems below treat digests as opaque strings, so an
injective placeholder is a faithful stand-in for a collision-free hash. -/
def sha256 (s : String) : String := "sha256:" ++ s

/-- The `crypto.canonicalize_and_hash`: canonicalize then hash. -/
def canonicalize_and_hash (v : JsonValue) : String :=
  sha256 (canonicalize_json v)

/-- Value of one hexadecimal digit character, `none` for a non-hex char. -/
def hexDigitVal? (c : Char) : Option Nat :=
  if '0' ≤ c ∧ c ≤ '9' then some (c.toNat - 48)
  else if 'a' ≤ c ∧ c ≤ 'f' then some (c.toNat - 87)
  else if 'A' ≤ c ∧ c ≤ 'F' then some (c.toNat - 55)
  else none

/-- Parse pairs of hex digits into bytes; `none` models the `ValueError`
raised by Python `bytes.fromhex` on odd length or non-hex characters. -/
def hexPairs? : List Char → Option (List Nat)
  | [] => some []
  | [_] => none
  | c1 :: c2 :: rest =>
    match hexDigitVal? c1, hexDigitVal? c2, hexPairs? rest with
    | some h, some l, some bs => some ((h * 16 + l) :: bs)
    | _, _, _ => none

/-- Model of `bytes.fromhex` on a hex string (whitespace-free inputs). -/
def hexToBytes? (s : String) : Option (List Nat) :=
  hexPairs? s.data

/-- Hex digit character for a value below 16 (lowercase, as Python emits). -/
def hexDigitChar (d : Nat) : Char :=
  if d < 10 then Char.ofNat (48 + d) else Char.ofNat (87 + d)

/-- Two lowercase hex digits per byte. -/
def hexChars : List Nat → List Char
  | [] => []
  | b :: bs => hexDigitChar (b / 16) :: hexDigitChar (b % 16) :: hexChars bs

/-- Model of `bytes.hex()`: lowercase hex encoding of a byte string. -/
def bytes_to_hex (l : List Nat) : String := String.mk (hexChars l)

/-- Model of `str.encode("utf-8")`, faithful on the ASCII strings (hex
digests and hashes) that the receipt code signs and verifies. -/
def strBytes (s : String) : List Nat := s.data.map Char.toNat

/-- Model of `crypto.sign` when the private key is already a byte string
(the SDK always stores its key as bytes): encode the message, apply the
external Ed25519 signing primitive `edSign`, return the signature as hex. -/
def crypto_sign (edSign : List Nat → List Nat → List Nat)
    (message : String) (private_key : List Nat) : String :=
  bytes_to_hex (edSign private_key (strBytes message))

/-- Model of `crypto.verify` with hex-string signature and public key.
Faithful to the source, the two `bytes.fromhex` conversions happen *before*
the `try:` block, so a malformed hex string is an uncaught `ValueError`
(`Except.error`); everything inside the `try:` block (`VerifyKey`
construction and `verify`, absorbed into `edVerify`) is caught and mapped
to a boolean. -/
def crypto_verify (edVerify : List Nat → List Nat → List Nat → Bool)
    (signature message public_key : String) : Except String Bool :=
  match hexToBytes? signature with
  | none => .error "ValueError: non-hexadecimal number found in fromhex() arg"
  | some sigB =>
    match hexToBytes? public_key with
    | none => .error "ValueError: non-hexadecimal number found in fromhex() arg"
    | some pkB => .ok (edVerify pkB (strBytes message) sigB)

/-- The `crypto.verify` when the public key is already bytes (the path used by
`TrustReceipt.verify` through the SDK, which stores the key as bytes):
only the signature is hex-decoded, and only that decode can raise. -/
def crypto_verify_pkbytes (edVerify : List Nat → List Nat → List Nat → Bool)
    (signature message : String) (pkB : List Nat) : Except String Bool :=
  match hexToBytes? signature with
  | none => .error "ValueError: non-hexadecimal number found in fromhex() arg"
  | some sigB => .ok (edVerify pkB (strBytes message) sigB)

/-- The `trust_receipt.TrustReceiptData`: caller input for building a receipt. -/
structure TrustReceiptData where
  session_id : String
  prompt : JsonValue
  response : JsonValue
  scores : List (String × Rat)
  agent_id : Option String := none
  prev_receipt_hash : Option String := none
  metadata : List (String × JsonValue) := []
  include_content : Bool := false

/-- The `trust_receipt.SignedReceipt`: the wire/storage projection.
`prompt_content`/`response_content` use `JsonValue.null` for Python `None`
(the dataclass declares them `Optional[Any] = None`, so the value `None`
and "absent" are one and the same in the source). -/
structure SignedReceipt where
  version : String
  timestamp : String
  session_id : String
  agent_id : Option String
  prompt_hash : String
  response_hash : String
  scores : List (String × Rat)
  prev_receipt_hash : Option String
  receipt_hash : String
  signature : String
  metadata : List (String × JsonValue)
  prompt_content : JsonValue := .null
  response_content : JsonValue := .null

/-- The in-memory `TrustReceipt` object (its `__init__`-assigned fields;
`_signature` is the `signature` field here, `""` while unsigned). -/
structure TrustReceipt where
  version : String
  timestamp : String
  session_id : String
  agent_id : Option String
  prompt_hash : String
  response_hash : String
  scores : List (String × Rat)
  prev_receipt_hash : Option String
  metadata : List (String × JsonValue)
  prompt_content : JsonValue
  response_content : JsonValue
  receipt_hash : String
  signature : String

/-- The `TrustReceipt.VERSION`. -/
def TrustReceipt.VERSION : String := "1.0"

/-- Python `x or None` applied to an optional string (`""` is falsy, so an
empty string collapses to `None`), as in `data.agent_id or None`. -/
def pyOrNone : Option String → Option String
  | some s => if s = "" then none else some s
  | none => none

/-- The `TrustReceipt._hash_content`: hash any content (including `None`). -/
def hash_content (content : JsonValue) : String :=
  match content with
  | .null => canonicalize_and_hash .null
  | c => canonicalize_and_hash c

/-- Scores dict as a JSON object, as it appears inside the hash payload. -/
def scoresJson (scores : List (String × Rat)) : JsonValue :=
  .obj (scores.map (fun p => (p.1, .num p.2)))

/-- A `None`-or-string field as it appears inside the hash payload. -/
def optStrJson : Option String → JsonValue
  | some s => .str s
  | none => .null

/-- The payload object hashed by `TrustReceipt._compute_receipt_hash`:
exactly the nine keys of the source dict literal. -/
def receiptPayload (version timestamp session_id : String)
    (agent_id : Option String) (prompt_hash response_hash : String)
    (scores : List (String × Rat)) (prev_receipt_hash : Option String)
    (metadata : List (String × JsonValue)) : JsonValue :=
  .obj [("version", .str version),
        ("timestamp", .str timestamp),
        ("session_id", .str session_id),
        ("agent_id", optStrJson agent_id),
        ("prompt_hash", .str prompt_hash),
        ("response_hash", .str response_hash),
        ("scores", scoresJson scores),
        ("prev_receipt_hash", optStrJson prev_receipt_hash),
        ("metadata", .obj metadata)]

/-- The `TrustReceipt._compute_receipt_hash` over the receipt's current fields. -/
def TrustReceipt.compute_receipt_hash (r : TrustReceipt) : String :=
  canonicalize_and_hash
    (receiptPayload r.version r.timestamp r.session_id r.agent_id
      r.prompt_hash r.response_hash r.scores r.prev_receipt_hash r.metadata)

/-- The `TrustReceipt.__init__`: build a receipt from a `TrustReceiptData`.
`now` models the `datetime.now(timezone.utc).isoformat()` timestamp.
Faithful to the source, there is no input validation of any kind: every
input is accepted, fields are copied, both content hashes and the receipt
hash are computed, and the signature starts out empty. -/
def TrustReceipt.build (now : String) (data : TrustReceiptData) : TrustReceipt :=
  let pre : TrustReceipt :=
    { version := TrustReceipt.VERSION
      timestamp := now
      session_id := data.session_id
      agent_id := pyOrNone data.agent_id
      prompt_hash := hash_content data.prompt
      response_hash := hash_content data.response
      scores := data.scores
      prev_receipt_hash := pyOrNone data.prev_receipt_hash
      metadata := data.metadata
      prompt_content := if data.include_content then data.prompt else .null
      response_content := if data.include_content then data.response else .null
      receipt_hash := ""
      signature := "" }
  { pre with receipt_hash := pre.compute_receipt_hash }

/-- The `TrustReceipt.sign`: `self._signature = sign(self.receipt_hash, key)`;
the SDK always passes its private key as bytes. Only the signature field
of the record changes. -/
def TrustReceipt.signWith (edSign : List Nat → List Nat → List Nat)
    (r : TrustReceipt) (private_key : List Nat) : TrustReceipt :=
  { r with signature := crypto_sign edSign r.receipt_hash private_key }

/-- The `TrustReceipt.verify`: `False` for an unsigned receipt, otherwise
`crypto.verify(self._signature, self.receipt_hash, public_key)` with the
public key already in byte form (as the SDK stores it). -/
def TrustReceipt.verify (edVerify : List Nat → List Nat → List Nat → Bool)
    (r : TrustReceipt) (public_key : List Nat) : Except String Bool :=
  if r.signature = "" then .ok false
  else crypto_verify_pkbytes edVerify r.signature r.receipt_hash public_key

/-- The `TrustReceipt.verify_chain`: does this receipt chain correctly from
`previous` (`self.prev_receipt_hash == previous.receipt_hash`; a `None`
predecessor hash never equals a string hash). -/
def TrustReceipt.verify_chain (r previous : TrustReceipt) : Bool :=
  match r.prev_receipt_hash with
  | none => false
  | some h => h == previous.receipt_hash

/-- The `TrustReceipt.to_json`: export as a `SignedReceipt`, copying every
field verbatim (in particular the stored `receipt_hash` and signature). -/
def TrustReceipt.to_json (r : TrustReceipt) : SignedReceipt :=
  { version := r.version
    timestamp := r.timestamp
    session_id := r.session_id
    agent_id := r.agent_id
    prompt_hash := r.prompt_hash
    response_hash := r.response_hash
    scores := r.scores
    prev_receipt_hash := r.prev_receipt_hash
    receipt_hash := r.receipt_hash
    signature := r.signature
    metadata := r.metadata
    prompt_content := r.prompt_content
    response_content := r.response_content }

/-- The `TrustReceipt.from_json`: construct a dummy receipt through
`TrustReceipt.__init__` (which stamps `now` and recomputes hashes), then
overwrite every transported field with the stored values — crucially
`receipt_hash` and `signature` are copied verbatim, and `version` is left
at the freshly-constructed protocol constant. -/
def TrustReceipt.from_json (now : String) (data : SignedReceipt) : TrustReceipt :=
  let dummy : TrustReceiptData :=
    { session_id := data.session_id
      prompt := .str ""
      response := .str ""
      scores := data.scores }
  let receipt := TrustReceipt.build now dummy
  { receipt with
      timestamp := data.timestamp
      agent_id := data.agent_id
      prompt_hash := data.prompt_hash
      response_hash := data.response_hash
      prev_receipt_hash := data.prev_receipt_hash
      metadata := data.metadata
      receipt_hash := data.receipt_hash
      signature := data.signature
      prompt_content := data.prompt_content
      response_content := data.response_content }

/-- Dictionary values occurring in `SignedReceipt.to_dict()`. -/
inductive DVal where
  | s (v : String)
  | os (v : Option String)
  | sc (v : List (String × Rat))
  | md (v : List (String × JsonValue))
  | js (v : JsonValue)

/-- The `SignedReceipt.to_dict`: `asdict(self)` in dataclass field order,
then `del d['prompt_content']` / `del d['response_content']` when the
stored value is `None`. -/
def SignedReceipt.to_dict (sr : SignedReceipt) : List (String × DVal) :=
  [("version", .s sr.version),
   ("timestamp", .s sr.timestamp),
   ("session_id", .s sr.session_id),
   ("agent_id", .os sr.agent_id),
   ("prompt_hash", .s sr.prompt_hash),
   ("response_hash", .s sr.response_hash),
   ("scores", .sc sr.scores),
   ("prev_receipt_hash", .os sr.prev_receipt_hash),
   ("receipt_hash", .s sr.receipt_hash),
   ("signature", .s sr.signature),
   ("metadata", .md sr.metadata)]
  ++ (if isNull sr.prompt_content then []
      else [("prompt_content", DVal.js sr.prompt_content)])
  ++ (if isNull sr.response_content then []
      else [("response_content", DVal.js sr.response_content)])

/-- The `wrapper.WrapOptions`. The constructor normalizes `metadata` and
`scores` with `x or {}`, so the fields here hold the post-normalization
values (`[]` both for an omitted and for an explicitly empty mapping —
the two are indistinguishable in the source). -/
structure WrapOptions where
  session_id : String
  input : JsonValue
  agent_id : Option String := none
  previous_receipt : Option SignedReceipt := none
  metadata : List (String × JsonValue) := []
  scores : List (String × Rat) := []
  extract_response : Option (JsonValue → JsonValue) := none
  include_content : Bool := false

/-- The `wrapper.TrustReceipts`: the SDK façade. The keypair is stored in byte
form after construction; key generation/derivation at construction is
outside the claims below, so the fields hold the resulting bytes. -/
structure TrustReceipts where
  default_agent_id : Option String := none
  calculate_scores : Option (JsonValue → JsonValue → List (String × Rat)) := none
  private_key : List Nat := []
  public_key : List Nat := []

/-- Python substring test on character lists (`needle in haystack`). -/
def charsContain (needle : List Char) : List Char → Bool
  | [] => needle.isEmpty
  | c :: cs => List.isPrefixOf needle (c :: cs) || charsContain needle cs

/-- Python `key in v` for the value shapes a response can take; `.error`
models the `TypeError` raised for non-container, non-string values. -/
def pyIn (key : String) : JsonValue → Except String Bool
  | .obj fields => .ok (fields.any (fun p => p.1 == key))
  | .str s => .ok (charsContain key.data s.data)
  | .arr l => .ok (l.any (fun v => match v with | .str s => s == key | _ => false))
  | .null => .error "TypeError: argument of type NoneType is not iterable"
  | .bool _ => .error "TypeError: argument of type bool is not iterable"
  | .num _ => .error "TypeError: argument of type number is not iterable"

/-- Python `v[key]` string indexing; `.error` models `TypeError`/`KeyError`
on non-dict values or a missing key. -/
def pyIndex (v : JsonValue) (key : String) : Except String JsonValue :=
  match v with
  | .obj fields =>
    match objGet? fields key with
    | some x => .ok x
    | none => .error "KeyError"
  | _ => .error "TypeError: indices must be integers"

/-- The `TrustReceipts._extract_response_content`: recognize the two common
chat-completion response shapes, fall back to the raw response. The source
can raise (`.get` on a non-dict choices element, `in` on a non-container
message), modelled as `.error`. -/
def extract_response_content (response : JsonValue) : Except String JsonValue :=
  if jsonTruthy response = false then .ok response
  else
    match response with
    | .obj fields =>
      let choicesStep : Except String (Option JsonValue) :=
        match objGet? fields "choices" with
        | some (.arr (c0 :: _)) =>
          match c0 with
          | .obj c0f =>
            let msg := (objGet? c0f "message").getD (.obj [])
            (match pyIn "content" msg with
             | .error e => .error e
             | .ok true =>
               (match pyIndex msg "content" with
                | .error e => .error e
                | .ok v => .ok (some v))
             | .ok false => .ok none)
          | _ => .error "AttributeError: object has no attribute get"
        | _ => .ok none
      match choicesStep with
      | .error e => .error e
      | .ok (some v) => .ok v
      | .ok none =>
        match objGet? fields "content" with
        | some (.arr (e0 :: _)) =>
          (match pyIn "text" e0 with
           | .error e => .error e
           | .ok true => pyIndex e0 "text"
           | .ok false => .ok response)
        | _ => .ok response
    | _ => .ok response

/-- Response extraction inside `wrap`: the caller-supplied
`options.extract_response` if present, else the default recognizer. -/
def wrapExtract (options : WrapOptions) (response : JsonValue) :
    Except String JsonValue :=
  match options.extract_response with
  | some f => .ok (f response)
  | none => extract_response_content response

/-- Python `a or b` on optional strings (`None` and `""` are falsy). -/
def pyOrOpt (a b : Option String) : Option String :=
  match a with
  | some s => if s = "" then b else some s
  | none => b

/-- The `TrustReceipts.wrap`, after the wrapped operation has already produced
`response`: extract the response content, choose the scores (explicit
non-empty scores win; otherwise the injected `calculate_scores` if any;
otherwise empty), assemble the `TrustReceiptData`, build, sign with the
SDK's private key, and export the signed receipt. -/
def TrustReceipts.wrap (edSign : List Nat → List Nat → List Nat)
    (sdk : TrustReceipts) (now : String) (response : JsonValue)
    (options : WrapOptions) : Except String SignedReceipt :=
  match wrapExtract options response with
  | .error e => .error e
  | .ok response_content =>
    let scores :=
      if options.scores.isEmpty then
        (match sdk.calculate_scores with
         | some f => f options.input response_content
         | none => [])
      else options.scores
    let receipt_data : TrustReceiptData :=
      { session_id := options.session_id
        prompt := options.input
        response := response_content
        scores := scores
        agent_id := pyOrOpt options.agent_id sdk.default_agent_id
        prev_receipt_hash := options.previous_receipt.map (fun p => p.receipt_hash)
        metadata := options.metadata
        include_content := options.include_content }
    let receipt := (TrustReceipt.build now receipt_data).signWith edSign sdk.private_key
    .ok receipt.to_json

/-- Result record of `TrustReceipts.verify_chain`. -/
structure ChainResult where
  valid : Bool
  errors : List String

/-- One iteration of the `verify_chain` loop at index `i ≥ 1`: reconstruct
both receipts, record a chain break if the link fails, then record an
invalid signature unless the current receipt verifies (an exception from
verification aborts the whole loop, as in the source). `from_json` is
called with a dummy timestamp: the reconstruction overwrites it. -/
def chainStep (edVerify : List Nat → List Nat → List Nat → Bool)
    (public_key : List Nat) (i : Nat) (prevSR curSR : SignedReceipt) :
    Except String (List String) :=
  let current := TrustReceipt.from_json "" curSR
  let previous := TrustReceipt.from_json "" prevSR
  let linkErrs :=
    if current.verify_chain previous then []
    else ["Chain break between receipt " ++ Nat.repr (i - 1) ++ " and " ++ Nat.repr i]
  match current.verify edVerify public_key with
  | .error e => .error e
  | .ok ok =>
    .ok (linkErrs ++ (if ok then [] else ["Invalid signature on receipt " ++ Nat.repr i]))

/-- The error-collection loop of `verify_chain`: `for i in
range(1, len(receipts))` over adjacent pairs, appending the errors of each
step in order. A list with fewer than two receipts makes no checks at all. -/
def chainErrors (edVerify : List Nat → List Nat → List Nat → Bool)
    (public_key : List Nat) : Nat → List SignedReceipt → Except String (List String)
  | _, [] => .ok []
  | _, [_] => .ok []
  | i, prev :: cur :: rest =>
    match chainStep edVerify public_key i prev cur with
    | .error e => .error e
    | .ok errs1 =>
      match chainErrors edVerify public_key (i + 1) (cur :: rest) with
      | .error e => .error e
      | .ok errs2 => .ok (errs1 ++ errs2)

/-- The `TrustReceipts.verify_chain`: collect every chain break and every
invalid signature over adjacent pairs, then report
`valid = (errors == [])`. -/
def TrustReceipts.verify_chain (edVerify : List Nat → List Nat → List Nat → Bool)
    (sdk : TrustReceipts) (receipts : List SignedReceipt) :
    Except String ChainResult :=
  match chainErrors edVerify sdk.public_key 1 receipts with
  | .error e => .error e
  | .ok errs => .ok { valid := errs.isEmpty, errors := errs }

/-! Concrete instantiations of the external Ed25519 primitives, used for
closed evaluations and witnesses. -/

/-- A concrete external signing primitive for closed statements: the
"signature bytes" are the key bytes followed by the message bytes (an
injective, deterministic stand-in for Ed25519 signing with key `[1]`). -/
def edSignModel (sk msg : List Nat) : List Nat := sk ++ msg

/-- The matching verification primitive for the key pair (private `[1]`,
public `[2]`): it accepts exactly the signatures `edSignModel` produces
under key `[1]`; any other combination — wrong key, tampered message,
wrong-length key material — yields `false`, like the caught-exception
path of the PyNaCl `try:` block. -/
def edVerifyModel (pk msg sig : List Nat) : Bool :=
  pk == [2] && sig == 1 :: msg

/-! Helper lemmas about the hex encoding. -/

/-- Decoding inverts encoding on a single hex digit. -/
theorem hexDigitVal_hexDigitChar : ∀ d < 16, hexDigitVal? (hexDigitChar d) = some d := by
  decide

/-- Decoding inverts encoding on byte strings (all bytes below 256). -/
theorem hexPairs_hexChars (l : List Nat) (h : ∀ b ∈ l, b < 256) :
    hexPairs? (hexChars l) = some l := by
  induction l with
  | nil => rfl
  | cons b bs ih =>
    have hb : b < 256 := h b (List.mem_cons_self b bs)
    have h1 : b / 16 < 16 := Nat.div_lt_of_lt_mul (by omega)
    have h2 : b % 16 < 16 := Nat.mod_lt _ (by omega)
    have e1 := hexDigitVal_hexDigitChar _ h1
    have e2 := hexDigitVal_hexDigitChar _ h2
    have ihh := ih (fun x hx => h x (List.mem_cons_of_mem _ hx))
    simp only [hexChars, hexPairs?, e1, e2, ihh]
    have : b / 16 * 16 + b % 16 = b := by omega
    rw [this]

/-- The `bytes.fromhex` inverts `bytes.hex()` on byte strings. -/
theorem hexToBytes_bytes_to_hex (l : List Nat) (h : ∀ b ∈ l, b < 256) :
    hexToBytes? (bytes_to_hex l) = some l :=
  hexPairs_hexChars l h

/-- The hex encoding of a non-empty byte string is a non-empty string. -/
theorem bytes_to_hex_ne_empty (l : List Nat) (h : l ≠ []) : bytes_to_hex l ≠ "" := by
  cases l with
  | nil => exact absurd rfl h
  | cons b bs =>
    intro he
    have hd := congrArg String.data he
    simp [bytes_to_hex, hexChars] at hd

/-- A receipt whose signature is the hex encoding of signature bytes that
the external verifier accepts verifies successfully (no exception). -/
theorem verify_of_accepted (edVerify : List Nat → List Nat → List Nat → Bool)
    (r : TrustReceipt) (pk sigB : List Nat)
    (hsig : r.signature = bytes_to_hex sigB) (hne : sigB ≠ [])
    (hlt : ∀ b ∈ sigB, b < 256)
    (hed : edVerify pk (strBytes r.receipt_hash) sigB = true) :
    r.verify edVerify pk = .ok true := by
  unfold TrustReceipt.verify crypto_verify_pkbytes
  rw [hsig, if_neg (bytes_to_hex_ne_empty _ hne), hexToBytes_bytes_to_hex _ hlt]
  show Except.ok (edVerify pk (strBytes r.receipt_hash) sigB) = Except.ok true
  rw [hed]

/-! The claims. -/

/-- C1 (code bug in the source): `crypto.verify` does not fail closed on a
malformed hex encoding. The `bytes.fromhex` conversions of the signature
and the public key run *before* the `try:` block, so a non-hexadecimal
signature string such as `"zz"` (or a non-hexadecimal public key) raises
`ValueError` to the caller instead of returning `False`; only failures
inside the try-block — e.g. a wrong-length but well-hex key — are caught
and mapped to `False`. -/
theorem c1_verify_raises_on_malformed_hex :
    crypto_verify edVerifyModel "zz" "message"
        "aaaaaaaaaaaaaaaaaaaaaaaaaaaaaaaaaaaaaaaaaaaaaaaaaaaaaaaaaaaaaaaa" =
      .error "ValueError: non-hexadecimal number found in fromhex() arg" ∧
    crypto_verify edVerifyModel "aa" "message" "zz" =
      .error "ValueError: non-hexadecimal number found in fromhex() arg" ∧
    crypto_verify edVerifyModel "aa" "message" "abcd" = .ok false :=
  ⟨rfl, rfl, rfl⟩

/-- Input with an empty `session_id`, for the C2 counterexample. -/
def c2data : TrustReceiptData :=
  { session_id := "", prompt := .str "p", response := .str "r", scores := [] }

/-- C2, counterexample: building a `TrustReceipt` from a `TrustReceiptData`
whose `session_id` is the empty string does NOT fail with a validation
error — `TrustReceipt.__init__` contains no validation at all — it
silently produces a receipt carrying the empty session id, with the
receipt hash already computed (so hashing did occur rather than being
prevented). -/
theorem c2_counterexample :
    (TrustReceipt.build "2024-01-01T00:00:00+00:00" c2data).session_id = "" ∧
    (TrustReceipt.build "2024-01-01T00:00:00+00:00" c2data).receipt_hash ≠ "" :=
  ⟨rfl, by decide⟩

/-- C2, amended: receipt construction performs no input validation: every
`TrustReceiptData` — including one with an empty `session_id` — is
accepted and silently coerced into a receipt whose `session_id` and
`scores` are copied verbatim, whose hash is computed, and whose signature
starts empty; no validation error is ever raised. -/
theorem c2_construction_never_validates (now : String) (d : TrustReceiptData) :
    (TrustReceipt.build now d).session_id = d.session_id ∧
    (TrustReceipt.build now d).scores = d.scores ∧
    (TrustReceipt.build now d).signature = "" ∧
    (TrustReceipt.build now d).receipt_hash =
      canonicalize_and_hash (receiptPayload TrustReceipt.VERSION now d.session_id
        (pyOrNone d.agent_id) (hash_content d.prompt) (hash_content d.response)
        d.scores (pyOrNone d.prev_receipt_hash) d.metadata) :=
  ⟨rfl, rfl, rfl, rfl⟩

/-- An unsigned receipt, for the C3 evaluation. -/
def c3receipt : TrustReceipt :=
  TrustReceipt.build "t0"
    { session_id := "s", prompt := .str "q", response := .str "a", scores := [] }

/-- An SDK instance holding the model key pair. -/
def sdkModel : TrustReceipts := { private_key := [1], public_key := [2] }

/-- C3 (code bug in the source): `verify_chain` never checks the signature
of the receipt at index 0. A one-element chain whose only receipt is
unsigned — evaluated with a verifier that rejects every signature — still
comes back `valid = true` with an empty error list, because the loop
`for i in range(1, len(receipts))` performs no iteration; so index 0 is
exempt from the signature check, not only from the predecessor-link
check. -/
theorem c3_index_zero_signature_unchecked :
    c3receipt.signature = "" ∧
    sdkModel.verify_chain (fun _ _ _ => false) [c3receipt.to_json] =
      .ok { valid := true, errors := [] } :=
  ⟨rfl, rfl⟩

/-- C5: signing changes only the signature field. Every other field —
version, timestamp, session id, agent id, the content hashes, scores,
predecessor hash, metadata, the content fields, and in particular
`receipt_hash` — is untouched; `receipt_hash` equals the hash of the
nine-field payload of the receipt's own fields, fixed at construction
(before any signing, since construction leaves the signature empty), and
re-signing signs that same already-fixed hash. -/
theorem c5_sign_mutates_only_signature
    (edSign : List Nat → List Nat → List Nat) (r : TrustReceipt)
    (sk sk2 : List Nat) (now : String) (d : TrustReceiptData) :
    ((r.signWith edSign sk).version = r.version ∧
     (r.signWith edSign sk).timestamp = r.timestamp ∧
     (r.signWith edSign sk).session_id = r.session_id ∧
     (r.signWith edSign sk).agent_id = r.agent_id ∧
     (r.signWith edSign sk).prompt_hash = r.prompt_hash ∧
     (r.signWith edSign sk).response_hash = r.response_hash ∧
     (r.signWith edSign sk).scores = r.scores ∧
     (r.signWith edSign sk).prev_receipt_hash = r.prev_receipt_hash ∧
     (r.signWith edSign sk).metadata = r.metadata ∧
     (r.signWith edSign sk).prompt_content = r.prompt_content ∧
     (r.signWith edSign sk).response_content = r.response_content ∧
     (r.signWith edSign sk).receipt_hash = r.receipt_hash) ∧
    ((r.signWith edSign sk).signature = crypto_sign edSign r.receipt_hash sk ∧
     ((r.signWith edSign sk).signWith edSign sk2).signature =
       crypto_sign edSign r.receipt_hash sk2) ∧
    ((TrustReceipt.build now d).signature = "" ∧
     (TrustReceipt.build now d).receipt_hash =
       (TrustReceipt.build now d).compute_receipt_hash ∧
     ((TrustReceipt.build now d).signWith edSign sk).receipt_hash =
       (TrustReceipt.build now d).compute_receipt_hash) :=
  ⟨⟨rfl, rfl, rfl, rfl, rfl, rfl, rfl, rfl, rfl, rfl, rfl, rfl⟩,
   ⟨rfl, rfl⟩, ⟨rfl, rfl, rfl⟩⟩

/-- C7: a receipt whose signature is empty (never signed) verifies as
`false` for every public key and every external verifier — the guard
`if not self._signature: return False` returns before any cryptographic
call, so no exception can arise and `true` is impossible. -/
theorem c7_unsigned_never_verifies
    (edVerify : List Nat → List Nat → List Nat → Bool)
    (r : TrustReceipt) (pk : List Nat) (h : r.signature = "") :
    r.verify edVerify pk = .ok false := by
  unfold TrustReceipt.verify
  rw [h]
  rfl

/-- Witness for C7: a freshly built (hence unsigned) receipt concretely
verifies as `false`. -/
theorem c7_witness :
    (TrustReceipt.build "t0"
      { session_id := "s7", prompt := .str "p", response := .str "r", scores := [] }
      : TrustReceipt).verify edVerifyModel [2] = .ok false :=
  c7_unsigned_never_verifies edVerifyModel _ [2] rfl

/-- C10: `from_json` never restores the serialized `version` field: the
reconstructed receipt's version is the protocol constant `"1.0"` whatever
version string the input carried, while `receipt_hash` is copied verbatim;
so the reconstructed version agrees with the stored one exactly when the
stored one was already `"1.0"`. -/
theorem c10_from_json_version_constant (now : String) (sr : SignedReceipt) :
    (TrustReceipt.from_json now sr).version = "1.0" ∧
    (TrustReceipt.from_json now sr).receipt_hash = sr.receipt_hash ∧
    ((TrustReceipt.from_json now sr).version = sr.version ↔ sr.version = "1.0") :=
  ⟨rfl, rfl, eq_comm⟩

/-! C4: the chain-of-three scenario, with all three receipts built and
signed under the model key pair (private `[1]`, public `[2]`). -/

/-- First receipt of the chain: no predecessor. -/
def c4r1 : TrustReceipt :=
  (TrustReceipt.build "t1"
    { session_id := "s", prompt := .str "q1", response := .str "a1",
      scores := [] }).signWith edSignModel [1]

/-- Input of the second receipt: predecessor `c4r1`. -/
def c4d2 : TrustReceiptData :=
  { session_id := "s", prompt := .str "q2", response := .str "a2",
    scores := [], prev_receipt_hash := some c4r1.receipt_hash }

/-- Second receipt of the chain. -/
def c4r2 : TrustReceipt := (TrustReceipt.build "t2" c4d2).signWith edSignModel [1]

/-- Input of the third receipt: predecessor `c4r2`. -/
def c4d3 : TrustReceiptData :=
  { session_id := "s", prompt := .str "q3", response := .str "a3",
    scores := [], prev_receipt_hash := some c4r2.receipt_hash }

/-- Third receipt of the chain. -/
def c4r3 : TrustReceipt := (TrustReceipt.build "t3" c4d3).signWith edSignModel [1]

/-- C4, counterexample: for the signed chain r1 → r2 → r3, the reordered
list `[r2, r1, r3]` is reported invalid with TWO chain breaks, not exactly
one — r1 (no predecessor hash) does not chain from r2, and r3 (predecessor
r2) does not chain from r1 — so the claim's "exactly one reported chain
break" is false on this input. All three signatures are valid, so no
signature error is reported. -/
theorem c4_counterexample :
    c4r1.prev_receipt_hash = none ∧
    c4r2.prev_receipt_hash = some c4r1.receipt_hash ∧
    c4r3.prev_receipt_hash = some c4r2.receipt_hash ∧
    sdkModel.verify_chain edVerifyModel
        [c4r2.to_json, c4r1.to_json, c4r3.to_json] =
      .ok { valid := false,
            errors := ["Chain break between receipt 0 and 1",
                       "Chain break between receipt 1 and 2"] } :=
  ⟨rfl, rfl, rfl, rfl⟩

/-- C4, amended: the in-order chain `[r1, r2, r3]` verifies as valid with
an empty error list; the reordered chain `[r2, r1, r3]` is invalid with
exactly two reported chain breaks (one for each adjacent pair that fails
the predecessor-link check) and no signature errors. -/
theorem c4_chain_of_three :
    sdkModel.verify_chain edVerifyModel
        [c4r1.to_json, c4r2.to_json, c4r3.to_json] =
      .ok { valid := true, errors := [] } ∧
    sdkModel.verify_chain edVerifyModel
        [c4r2.to_json, c4r1.to_json, c4r3.to_json] =
      .ok { valid := false,
            errors := ["Chain break between receipt 0 and 1",
                       "Chain break between receipt 1 and 2"] } :=
  ⟨rfl, rfl⟩

/-- C6: round trip through serialization. For every receipt,
`from_json(to_json(r))` preserves the stored `receipt_hash` and
`signature` verbatim (no recomputation); and after build → sign →
serialize → deserialize, the receipt still verifies against the signer's
public key, provided the external signer produced a well-formed non-empty
byte signature that the external verifier accepts for this key pair (which
Ed25519 does). -/
theorem c6_roundtrip_preserves
    (nowFJ : String) (r : TrustReceipt)
    (edSign : List Nat → List Nat → List Nat)
    (edVerify : List Nat → List Nat → List Nat → Bool)
    (now : String) (d : TrustReceiptData) (sk pk : List Nat)
    (hlt : ∀ b ∈ edSign sk (strBytes (TrustReceipt.build now d).receipt_hash), b < 256)
    (hne : edSign sk (strBytes (TrustReceipt.build now d).receipt_hash) ≠ [])
    (hed : edVerify pk (strBytes (TrustReceipt.build now d).receipt_hash)
             (edSign sk (strBytes (TrustReceipt.build now d).receipt_hash)) = true) :
    (TrustReceipt.from_json nowFJ r.to_json).receipt_hash = r.receipt_hash ∧
    (TrustReceipt.from_json nowFJ r.to_json).signature = r.signature ∧
    (TrustReceipt.from_json nowFJ
        ((TrustReceipt.build now d).signWith edSign sk).to_json).receipt_hash =
      (TrustReceipt.build now d).receipt_hash ∧
    (TrustReceipt.from_json nowFJ
        ((TrustReceipt.build now d).signWith edSign sk).to_json).verify edVerify pk =
      .ok true := by
  refine ⟨rfl, rfl, rfl, ?_⟩
  exact verify_of_accepted edVerify _ pk _ rfl hne hlt hed

/-- The rational 19/20, i.e. the scenario score 0.95, written with an
explicit denominator so that it evaluates by kernel reduction. -/
def ratNineteenTwentieths : Rat := ⟨19, 20, by decide, by decide⟩

/-- The end-to-end scenario input of the specification: session `"s1"`,
the France question, the Paris answer, overall score 0.95. -/
def c6data : TrustReceiptData :=
  { session_id := "s1", prompt := .str "What is the capital of France?",
    response := .str "Paris.", scores := [("overall", ratNineteenTwentieths)] }

/-- Witness for C6: the end-to-end scenario, concretely — build, sign,
serialize, deserialize, then verify yields `true` and the hash survives. -/
theorem c6_witness :
    (TrustReceipt.from_json "tf"
        ((TrustReceipt.build "tb" c6data).signWith edSignModel [1]).to_json).receipt_hash =
      (TrustReceipt.build "tb" c6data).receipt_hash ∧
    (TrustReceipt.from_json "tf"
        ((TrustReceipt.build "tb" c6data).signWith edSignModel [1]).to_json).verify
        edVerifyModel [2] =
      .ok true :=
  ⟨(c6_roundtrip_preserves "tf" c4r1 edSignModel edVerifyModel "tb" c6data [1] [2]
      (by decide) (by decide) (by decide)).2.2.1,
   (c6_roundtrip_preserves "tf" c4r1 edSignModel edVerifyModel "tb" c6data [1] [2]
      (by decide) (by decide) (by decide)).2.2.2⟩

/-- Input with `include_content = true` but a `None` prompt, for the C8
counterexample. -/
def c8data : TrustReceiptData :=
  { session_id := "s", prompt := .null, response := .str "r", scores := [],
    include_content := true }

/-- C8, counterexample: a receipt built with `include_content = true` whose
prompt input is `None` serializes WITHOUT the `prompt_content` key:
`to_dict` deletes a content key whenever the stored value is `None`,
conflating "content withheld" with "content equal to None" — so with
`include_content = true` the serialized form does not always contain both
content keys reproducing the inputs. -/
theorem c8_counterexample :
    c8data.include_content = true ∧
    ((TrustReceipt.build "t" c8data).to_json.to_dict).map Prod.fst =
      ["version", "timestamp", "session_id", "agent_id", "prompt_hash",
       "response_hash", "scores", "prev_receipt_hash", "receipt_hash",
       "signature", "metadata", "response_content"] :=
  ⟨rfl, rfl⟩

/-- C8, amended: the serialized dictionary of a built receipt consists of
exactly the eleven base keys (in dataclass order, with the input-derived
values), followed by `prompt_content` exactly when `include_content` was
set and the prompt input is not `None`, and `response_content` exactly
when `include_content` was set and the response input is not `None`; when
present, the content entries carry the exact input values. -/
theorem c8_serialized_form (now : String) (d : TrustReceiptData) :
    (TrustReceipt.build now d).to_json.to_dict =
      [("version", DVal.s "1.0"),
       ("timestamp", DVal.s now),
       ("session_id", DVal.s d.session_id),
       ("agent_id", DVal.os (pyOrNone d.agent_id)),
       ("prompt_hash", DVal.s (hash_content d.prompt)),
       ("response_hash", DVal.s (hash_content d.response)),
       ("scores", DVal.sc d.scores),
       ("prev_receipt_hash", DVal.os (pyOrNone d.prev_receipt_hash)),
       ("receipt_hash", DVal.s (TrustReceipt.build now d).receipt_hash),
       ("signature", DVal.s ""),
       ("metadata", DVal.md d.metadata)]
      ++ (if d.include_content && !(isNull d.prompt) then
            [("prompt_content", DVal.js d.prompt)] else [])
      ++ (if d.include_content && !(isNull d.response) then
            [("response_content", DVal.js d.response)] else []) := by
  obtain ⟨sid, p, resp, sc, aid, prev, md, ic⟩ := d
  cases ic <;> cases p <;> cases resp <;> rfl

/-- The scores embedded by `wrap` are exactly the selection "explicit
non-empty scores, else the injected scorer's result, else empty",
whenever response extraction succeeds. -/
theorem wrap_scores (edSign : List Nat → List Nat → List Nat)
    (sdk : TrustReceipts) (now : String) (response : JsonValue)
    (options : WrapOptions) (rc : JsonValue)
    (hrc : wrapExtract options response = .ok rc) :
    Except.map SignedReceipt.scores (sdk.wrap edSign now response options) =
      .ok (if options.scores.isEmpty then
             (match sdk.calculate_scores with
              | some f => f options.input rc
              | none => [])
           else options.scores) := by
  unfold TrustReceipts.wrap
  rw [hrc]
  rfl

/-- An SDK whose injected scorer returns the empty mapping, for the C9
counterexample. -/
def sdk9 : TrustReceipts :=
  { calculate_scores := some (fun _ _ => []), private_key := [1], public_key := [2] }

/-- Wrap options with an (explicitly) empty scores mapping. -/
def opts9 : WrapOptions :=
  { session_id := "s", input := .str "q", extract_response := some id }

/-- C9, counterexample: with `options.scores` empty and a `calculate_scores`
function configured — one that returns an empty mapping — the wrapped call
still produces a receipt carrying an empty scores mapping, refuting "only
when `options.scores` is empty and no `calculate_scores` function exists
does the receipt carry an empty scores mapping". -/
theorem c9_counterexample :
    sdk9.calculate_scores.isSome = true ∧
    opts9.scores = [] ∧
    Except.map SignedReceipt.scores (sdk9.wrap edSignModel "t" (.str "resp") opts9) =
      .ok [] :=
  ⟨rfl, rfl, rfl⟩

/-- C9, amended: in `wrap`, an explicitly supplied empty scores mapping is
treated the same as no scores being supplied: when `options.scores` is
empty and a `calculate_scores` function was injected, that function is
invoked on the input and the extracted response and its result is embedded
in the receipt; a non-empty `options.scores` is embedded as supplied; and
the receipt carries an empty scores mapping exactly when `options.scores`
is empty and either no `calculate_scores` function exists or the
configured function itself returns an empty mapping. -/
theorem c9_empty_scores_recomputed (edSign : List Nat → List Nat → List Nat)
    (sdk : TrustReceipts) (now : String) (response : JsonValue)
    (options : WrapOptions) (sr : SignedReceipt) (rc : JsonValue)
    (hwrap : sdk.wrap edSign now response options = .ok sr)
    (hrc : wrapExtract options response = .ok rc) :
    (options.scores = [] → ∀ f, sdk.calculate_scores = some f →
      sr.scores = f options.input rc) ∧
    (options.scores ≠ [] → sr.scores = options.scores) ∧
    (sr.scores = [] ↔ options.scores = [] ∧
      (sdk.calculate_scores = none ∨
       ∃ f, sdk.calculate_scores = some f ∧ f options.input rc = [])) := by
  have hsel := wrap_scores edSign sdk now response options rc hrc
  rw [hwrap] at hsel
  have hs : sr.scores =
      (if options.scores.isEmpty then
         (match sdk.calculate_scores with
          | some f => f options.input rc
          | none => [])
       else options.scores) := Except.ok.inj hsel
  refine ⟨?_, ?_, ?_⟩
  · intro h0 f hf
    rw [hs, h0, hf]
    rfl
  · intro hne
    rw [hs, if_neg ?_]
    simp [List.isEmpty_iff, hne]
  · rw [hs]
    cases hsc : options.scores with
    | cons a l => simp [hsc]
    | nil =>
      cases hcs : sdk.calculate_scores with
      | none => simp
      | some f => simp

/-- The SDK of the C9 witness: a scorer that returns a non-empty mapping. -/
def sdk9w : TrustReceipts :=
  { calculate_scores := some (fun _ _ => [("overall", (1 : Rat))]),
    private_key := [1], public_key := [2] }

/-- The exact signed receipt that `sdk9w.wrap` produces for the witness
options (mirroring the scores selection: empty explicit scores, so the
injected scorer's result is embedded). -/
def c9wSr : SignedReceipt :=
  ((TrustReceipt.build "t"
    { session_id := "s", prompt := .str "q", response := .str "resp",
      scores := [("overall", (1 : Rat))] }).signWith edSignModel [1]).to_json

/-- Witness for C9: concretely, with empty explicit scores and a scorer
returning `{"overall": 1}`, the receipt embeds `{"overall": 1}`. -/
theorem c9_witness : c9wSr.scores = [("overall", (1 : Rat))] := by
  have h := (c9_empty_scores_recomputed edSignModel sdk9w "t" (.str "resp") opts9
    c9wSr (.str "resp") rfl rfl).1 rfl (fun _ _ => [("overall", (1 : Rat))]) rfl
  exact h

end Sonate
